import Mathlib

/-!
Shallow embedding of the task-dispatch and worker-liveness core of
`src/app.py` (distributed rendering system prototype).

Modelling conventions:
* `DateTime` values are natural numbers; the wall clock is passed to each
  operation as a `now` argument where the source calls `datetime.now()`.
* The SQLAlchemy column defaults `created_at = datetime.now()` and
  `updated_at = datetime.now()` are evaluated once, at module import, in the
  source; they are therefore the fixed constant `serverStart` here.
* uuid4 id generation is modelled by a fresh-id counter `nextId` in the state;
  ids are natural numbers.
* The task table and worker table are lists in insertion order; an SQL
  `ORDER BY <rank>` followed by `.first()` is modelled as the first element of
  the list attaining the minimal rank (stable tie-breaking by insertion order,
  which is what SQLite's scan produces for this schema).
* In `worker_request_task` the source filters with the Python expression
  `RenderTask.status == 'rendering' and RenderTask.worker_id == worker_id`.
  Python evaluates the truthiness of the first SQLAlchemy comparison
  (`BinaryExpression.__bool__` on `eq` compares hashes of the operands, giving
  `False`), so the whole `and` expression evaluates to its FIRST operand and
  the executed filter is only `status == 'rendering'` — the `worker_id`
  condition is discarded.
* The bare `datetime()` calls in `update_worker_status`,
  `update_render_status`, `complete_render` and `worker_heartbeat` raise
  `TypeError` (datetime requires year/month/day).  The exception propagates
  before `db.session.commit()`, the request ends in HTTP 500, and the
  uncommitted session is rolled back at app-context teardown, so no field
  change persists.  Such paths are modelled as returning the unchanged state
  with a `serverError` (500) response.
-/

namespace DistributedRendering

/-- The priority constants, in rank order, from `PRIORITY` in app.py. -/
def PRIORITY : List String := ["RUSH", "HIGH", "MEDIUM", "LOW"]

/-- Rank of a priority string: its index in `PRIORITY`.  This is the value of
the SQL `case` expression `ordering` in app.py (RUSH = 0 … LOW = 3). -/
def prioRank (p : String) : Nat := PRIORITY.indexOf p

/-- Column-default timestamp: `datetime.now()` evaluated once at module
import, hence one fixed value shared by every row that uses the default. -/
def serverStart : Nat := 0

/-- A row of the `RenderTask` table. -/
structure RenderTask where
  id : Nat
  status : String
  priority : String
  progress : Rat
  created_at : Nat
  updated_at : Nat
  worker_id : Option Nat
deriving DecidableEq, Repr

/-- A row of the `Worker` table. -/
structure Worker where
  id : Nat
  status : String
  last_heartbeat : Option Nat
  current_task_id : Option Nat
deriving DecidableEq, Repr

/-- The whole store: both tables in insertion order, plus the fresh-id
counter modelling uuid4. -/
structure St where
  tasks : List RenderTask
  workers : List Worker
  nextId : Nat
deriving DecidableEq, Repr

/-- The empty store. -/
def initSt : St := ⟨[], [], 0⟩

/-- A freshly submitted task (all column defaults from the model class). -/
def mkTask (id : Nat) (priority : String) : RenderTask :=
  ⟨id, "pending", priority, 0, serverStart, serverStart, none⟩

/-- The JSON bodies + HTTP status codes the endpoints can produce. -/
inductive Resp where
  /-- 201, `create_render` success. -/
  | createdR (taskId : Nat)
  /-- 400, `create_render` with a priority outside `PRIORITY`. -/
  | invalidPriority
  /-- 200, `get_renders` listing. -/
  | okTaskList (l : List (Nat × String × String × Rat))
  /-- 404, unknown task id. -/
  | taskNotFound
  /-- 200, `get_render_status` detail. -/
  | okTaskInfo (info : Nat × String × String × Rat × Nat × Nat)
  /-- 200, `get_workers` listing. -/
  | okWorkerList (l : List (Nat × String × Option Nat))
  /-- 404, `worker_request_task` "Task is processing". -/
  | busyR
  /-- 404, `worker_request_task` / worker endpoints "Worker not found". -/
  | workerNotFound
  /-- 404, `worker_request_task` "No available tasks". -/
  | noTasksR
  /-- 200, `worker_request_task` "Task assigned to worker". -/
  | assignedR (taskId : Nat)
  /-- 400, `update_worker_status` with an unrecognized status. -/
  | invalidStatus
  /-- 200, `update_worker_status` success. -/
  | okWorkerStatus
  /-- 500, an uncaught `TypeError` from a bare `datetime()` call. -/
  | serverError
  /-- no HTTP response: background sweep. -/
  | okSweep
deriving DecidableEq, Repr

/-- HTTP status code of a response. -/
def Resp.code : Resp → Nat
  | .createdR _ => 201
  | .invalidPriority => 400
  | .okTaskList _ => 200
  | .taskNotFound => 404
  | .okTaskInfo _ => 200
  | .okWorkerList _ => 200
  | .busyR => 404
  | .workerNotFound => 404
  | .noTasksR => 404
  | .assignedR _ => 200
  | .invalidStatus => 400
  | .okWorkerStatus => 200
  | .serverError => 500
  | .okSweep => 200

/-- `db.session.get(RenderTask, tid)` — lookup by primary key. -/
def findTask (s : St) (tid : Nat) : Option RenderTask :=
  s.tasks.find? (fun t => t.id = tid)

/-- `db.session.get(Worker, wid)` — lookup by primary key. -/
def findWorker (s : St) (wid : Nat) : Option Worker :=
  s.workers.find? (fun w => w.id = wid)

/-- POST /api/renders (`create_render`): validate the priority, then insert a
new task with the column defaults. -/
def createRender (prio : Option String) (s : St) : St × Resp :=
  let priority := prio.getD "MEDIUM"
  if priority ∈ PRIORITY then
    ({ s with tasks := s.tasks ++ [mkTask s.nextId priority],
              nextId := s.nextId + 1 },
     .createdR s.nextId)
  else (s, .invalidPriority)

/-- GET /api/renders (`get_renders`): list id/status/priority/progress. -/
def getRenders (s : St) : St × Resp :=
  (s, .okTaskList (s.tasks.map (fun t => (t.id, t.status, t.priority, t.progress))))

/-- GET /api/renders/{id} (`get_render_status`). -/
def getRenderStatus (tid : Nat) (s : St) : St × Resp :=
  match findTask s tid with
  | none => (s, .taskNotFound)
  | some t => (s, .okTaskInfo (t.id, t.status, t.priority, t.progress, t.created_at, t.updated_at))

/-- GET /api/workers (`get_workers`). -/
def getWorkers (s : St) : St × Resp :=
  (s, .okWorkerList (s.workers.map (fun w => (w.id, w.status, w.last_heartbeat))))

/-- The dispatcher's selection query, line 146 of app.py:
`RenderTask.query.filter(status == 'pending').order_by(ordering).first()`.
`pickMin` returns the first list element attaining the minimal priority rank
(ties keep the earlier element, i.e. insertion order). -/
def pickMin : List RenderTask → Option RenderTask
  | [] => none
  | t :: ts =>
    match pickMin ts with
    | none => some t
    | some u => if prioRank t.priority ≤ prioRank u.priority then some t else some u

/-- Selection among pending tasks only. -/
def selectNextTask (ts : List RenderTask) : Option RenderTask :=
  pickMin (ts.filter (fun t => t.status = "pending"))

/-- The bind's task update: `task.status = 'rendering'; task.worker_id = wid`. -/
def setTaskAssigned (tid wid : Nat) (ts : List RenderTask) : List RenderTask :=
  ts.map (fun t => if t.id = tid then { t with status := "rendering", worker_id := some wid } else t)

/-- The bind's worker update: `worker.status = 'Busy'; worker.current_task_id = tid`. -/
def setWorkerBusy (wid tid : Nat) (ws : List Worker) : List Worker :=
  ws.map (fun w => if w.id = wid then { w with status := "Busy", current_task_id := some tid } else w)

/-- The auto-registration insert inside `worker_request_task`: a fresh worker
in `Ready` status with `last_heartbeat = datetime.now()` (a genuine now). -/
def autoRegister (now : Nat) (s : St) : St :=
  { s with workers := s.workers ++ [⟨s.nextId, "Ready", some now, none⟩],
           nextId := s.nextId + 1 }

/-- POST /api/workers/{id}/request-task (`worker_request_task`).

`wid = none` models an unknown/empty worker-id path parameter (the sweep
calls this with `''`).  The busy check's filter is only
`status == 'rendering'` — the `worker_id` conjunct is discarded by Python's
`and` (see the module docstring). -/
def workerRequestTask (wid : Option Nat) (now : Nat) (s : St) : St × Resp :=
  let noWorkers := (s.workers.filter (fun w => w.status = "Ready")).length
  match s.tasks.find? (fun t => t.status = "rendering") with
  | some _ => (s, .busyR)
  | none =>
    let s1 := if noWorkers = 0 then autoRegister now s else s
    let wid1 := if noWorkers = 0 then some s.nextId else wid
    match wid1 with
    | none => (s1, .workerNotFound)
    | some w =>
      match findWorker s1 w with
      | none => (s1, .workerNotFound)
      | some _ =>
        match selectNextTask s1.tasks with
        | none => (s1, .noTasksR)
        | some t =>
          ({ s1 with tasks := setTaskAssigned t.id w s1.tasks,
                     workers := setWorkerBusy w t.id s1.workers },
           .assignedR t.id)

/-- POST /api/workers/{id}/status (`update_worker_status`).  For
`Ready`/`Busy` the line `worker.last_heartbeat = datetime() …` raises
`TypeError` before the commit, so only the `Offline` branch persists. -/
def updateWorkerStatus (wid : Nat) (status : String) (s : St) : St × Resp :=
  match findWorker s wid with
  | none => (s, .workerNotFound)
  | some _ =>
    if status ∈ (["Ready", "Busy", "Offline"] : List String) then
      if status = "Offline" then
        ({ s with workers := s.workers.map (fun w =>
             if w.id = wid then { w with status := status, last_heartbeat := none } else w) },
         .okWorkerStatus)
      else (s, .serverError)
    else (s, .invalidStatus)

/-- POST /api/renders/{id}/status (`update_render_status`).  After the
(optional) field assignments, `task.updated_at = datetime()` raises
`TypeError` before the commit on every found-task call, so nothing persists
and the request ends in HTTP 500.  The `status`/`progress` arguments are
accepted without any validation by the source. -/
def updateRenderStatus (tid : Nat) (status : Option String) (progress : Option Rat)
    (s : St) : St × Resp :=
  match findTask s tid with
  | none => (s, .taskNotFound)
  | some _ => (s, .serverError)

/-- POST /api/renders/{id}/complete (`complete_render`).  The line
`task.updated_at = datetime()` raises `TypeError` before the commit, so the
`task.status = 'Completed'` assignment is rolled back; the worker is never
touched by this handler at all. -/
def completeRender (tid : Nat) (s : St) : St × Resp :=
  match findTask s tid with
  | none => (s, .taskNotFound)
  | some _ => (s, .serverError)

/-- POST /api/workers/{id}/heartbeat (`worker_heartbeat`).  The line
`worker.last_heartbeat = datetime()` raises `TypeError` before the commit. -/
def workerHeartbeat (wid : Nat) (s : St) : St × Resp :=
  match findWorker s wid with
  | none => (s, .workerNotFound)
  | some _ => (s, .serverError)

/-- The sweep's staleness query: `last_heartbeat < now - 30`; an SQL NULL
`last_heartbeat` compares as NULL and is excluded. -/
def staleWorker (now : Nat) (w : Worker) : Bool :=
  match w.last_heartbeat with
  | some h => h + 30 < now
  | none => false

/-- The Liveness Monitor sweep (`check_worker_failures`): query the stale
workers, then — instead of reclaiming — call `worker_request_task('')` when
there are none, and `worker_request_task(worker.id)` for each stale worker. -/
def checkWorkerFailures (now : Nat) (s : St) : St :=
  let failed := s.workers.filter (staleWorker now)
  if failed.isEmpty then (workerRequestTask none now s).1
  else failed.foldl (fun st w => (workerRequestTask (some w.id) now st).1) s

/-- One external operation against the store. -/
inductive Op where
  | submit (prio : Option String)
  | listTasks
  | getTask (tid : Nat)
  | listWorkers
  | request (wid : Option Nat) (now : Nat)
  | updWorker (wid : Nat) (status : String)
  | updTask (tid : Nat) (status : Option String) (progress : Option Rat)
  | complete (tid : Nat)
  | heartbeat (wid : Nat)
  | sweep (now : Nat)
deriving DecidableEq, Repr

/-- Run one operation, returning the new state and the response. -/
def stepR (s : St) : Op → St × Resp
  | .submit p => createRender p s
  | .listTasks => getRenders s
  | .getTask tid => getRenderStatus tid s
  | .listWorkers => getWorkers s
  | .request wid now => workerRequestTask wid now s
  | .updWorker wid st => updateWorkerStatus wid st s
  | .updTask tid st pr => updateRenderStatus tid st pr s
  | .complete tid => completeRender tid s
  | .heartbeat wid => workerHeartbeat wid s
  | .sweep now => (checkWorkerFailures now s, .okSweep)

/-- State part of one step. -/
def step (s : St) (o : Op) : St := (stepR s o).1

/-- The state reached from the empty store by a sequence of operations. -/
def run (ops : List Op) : St := ops.foldl step initSt

/-! ### Properties of the dispatcher's selection -/

theorem pickMin_eq_none {l : List RenderTask} : pickMin l = none ↔ l = [] := by
  cases l with
  | nil => simp [pickMin]
  | cons t ts =>
    simp only [pickMin]
    cases h : pickMin ts with
    | none => simp
    | some u => simp only [h]; split <;> simp

theorem pickMin_le {l : List RenderTask} {t : RenderTask} (h : pickMin l = some t) :
    ∀ u ∈ l, prioRank t.priority ≤ prioRank u.priority := by
  induction l generalizing t with
  | nil => simp [pickMin] at h
  | cons a as ih =>
    simp only [pickMin] at h
    cases h' : pickMin as with
    | none =>
      rw [h'] at h
      cases h
      have : as = [] := pickMin_eq_none.mp h'
      subst this
      intro u hu
      simp at hu
      subst hu
      exact le_refl _
    | some u =>
      rw [h'] at h
      dsimp only at h
      by_cases hle : prioRank a.priority ≤ prioRank u.priority
      · rw [if_pos hle] at h
        cases h
        intro v hv
        rcases List.mem_cons.mp hv with rfl | hv
        · exact le_refl _
        · exact le_trans hle (ih h' v hv)
      · rw [if_neg hle] at h
        injection h with heq
        subst heq
        intro v hv
        rcases List.mem_cons.mp hv with rfl | hv
        · exact le_of_lt (lt_of_not_le hle)
        · exact ih h' v hv

theorem pickMin_split {l : List RenderTask} {t : RenderTask} (h : pickMin l = some t) :
    ∃ l1 l2, l = l1 ++ t :: l2 ∧
      ∀ u ∈ l1, prioRank t.priority < prioRank u.priority := by
  induction l generalizing t with
  | nil => simp [pickMin] at h
  | cons a as ih =>
    simp only [pickMin] at h
    cases h' : pickMin as with
    | none =>
      rw [h'] at h
      cases h
      exact ⟨[], as, rfl, by simp⟩
    | some u =>
      rw [h'] at h
      dsimp only at h
      by_cases hle : prioRank a.priority ≤ prioRank u.priority
      · rw [if_pos hle] at h
        cases h
        exact ⟨[], as, rfl, by simp⟩
      · rw [if_neg hle] at h
        injection h with heq
        subst heq
        rcases ih h' with ⟨l1, l2, rfl, hl1⟩
        refine ⟨a :: l1, l2, rfl, ?_⟩
        intro v hv
        rcases List.mem_cons.mp hv with rfl | hv
        · exact lt_of_not_le hle
        · exact hl1 v hv

theorem pickMin_mem {l : List RenderTask} {t : RenderTask} (h : pickMin l = some t) :
    t ∈ l := by
  rcases pickMin_split h with ⟨l1, l2, rfl, -⟩
  simp

theorem selectNextTask_isSome {ts : List RenderTask}
    (h : ∃ t ∈ ts, t.status = "pending") : ∃ t, selectNextTask ts = some t := by
  rcases h with ⟨t, ht, hs⟩
  unfold selectNextTask
  cases hp : pickMin (ts.filter (fun t => t.status = "pending")) with
  | none =>
    have := pickMin_eq_none.mp hp
    rw [List.filter_eq_nil_iff] at this
    exact absurd (by simpa using hs) (this t ht)
  | some u => exact ⟨u, rfl⟩

theorem selectNextTask_mem_pending {ts : List RenderTask} {t : RenderTask}
    (h : selectNextTask ts = some t) : t ∈ ts ∧ t.status = "pending" := by
  have := pickMin_mem h
  have hmem := List.mem_filter.mp this
  exact ⟨hmem.1, by simpa using hmem.2⟩

theorem selectNextTask_min {ts : List RenderTask} {t : RenderTask}
    (h : selectNextTask ts = some t) :
    ∀ u ∈ ts, u.status = "pending" → prioRank t.priority ≤ prioRank u.priority := by
  intro u hu hp
  exact pickMin_le h u (List.mem_filter.mpr ⟨hu, by simpa using hp⟩)

/-! ### The bidirectional task/worker invariant -/

/-- The §3 invariant of the spec, stated over the embedded store, together
with the auxiliary facts needed to push it through every operation. -/
structure Inv (s : St) : Prop where
  linked : ∀ t ∈ s.tasks,
    (t.status = "rendering" ↔
      ∃ w ∈ s.workers, t.worker_id = some w.id ∧ w.current_task_id = some t.id)
  unassigned : ∀ t ∈ s.tasks, t.status ≠ "rendering" → t.worker_id = none
  workerTask : ∀ w ∈ s.workers, ∀ tid, w.current_task_id = some tid →
    ∃ t ∈ s.tasks, t.id = tid ∧ t.status = "rendering" ∧ t.worker_id = some w.id
  createdConst : ∀ t ∈ s.tasks, t.created_at = serverStart

theorem inv_initSt : Inv initSt := by
  constructor <;> intro t ht <;> simp [initSt] at ht

/-! ### Invariant preservation through every operation -/

theorem inv_createRender {s : St} (inv : Inv s) (p : Option String) :
    Inv (createRender p s).1 := by
  unfold createRender
  dsimp only
  split
  · constructor
    · intro t ht
      rcases List.mem_append.mp ht with ht | ht
      · exact inv.linked t ht
      · rw [List.mem_singleton] at ht
        subst ht
        refine iff_of_false (fun h => ?_) (fun h => ?_)
        · have h2 : "pending" = "rendering" := h
          exact absurd h2 (by decide)
        · rcases h with ⟨w, -, hnone, -⟩
          exact Option.noConfusion hnone
    · intro t ht
      rcases List.mem_append.mp ht with ht | ht
      · exact inv.unassigned t ht
      · rw [List.mem_singleton] at ht
        subst ht
        intro
        rfl
    · intro w hw tid hcur
      rcases inv.workerTask w hw tid hcur with ⟨t, ht, h1, h2, h3⟩
      exact ⟨t, List.mem_append_left _ ht, h1, h2, h3⟩
    · intro t ht
      rcases List.mem_append.mp ht with ht | ht
      · exact inv.createdConst t ht
      · rw [List.mem_singleton] at ht
        subst ht
        rfl
  · exact inv

theorem inv_autoRegister {s : St} (inv : Inv s) (now : Nat) :
    Inv (autoRegister now s) := by
  constructor
  · intro t ht
    rw [inv.linked t ht]
    constructor
    · rintro ⟨w, hw, h1, h2⟩
      exact ⟨w, List.mem_append_left _ hw, h1, h2⟩
    · rintro ⟨w, hw, h1, h2⟩
      rcases List.mem_append.mp hw with hw | hw
      · exact ⟨w, hw, h1, h2⟩
      · rw [List.mem_singleton] at hw
        subst hw
        exact Option.noConfusion h2
  · exact inv.unassigned
  · intro w hw tid hcur
    rcases List.mem_append.mp hw with hw | hw
    · exact inv.workerTask w hw tid hcur
    · rw [List.mem_singleton] at hw
      subst hw
      exact Option.noConfusion hcur
  · exact inv.createdConst

theorem workers_idle_of_no_rendering {s : St} (inv : Inv s)
    (hnr : ∀ t ∈ s.tasks, t.status ≠ "rendering") :
    ∀ w ∈ s.workers, w.current_task_id = none := by
  intro w hw
  cases hcur : w.current_task_id with
  | none => rfl
  | some tid =>
    rcases inv.workerTask w hw tid hcur with ⟨t, ht, -, hst, -⟩
    exact absurd hst (hnr t ht)

theorem inv_bind {s : St} {wid : Nat} {t0 : RenderTask} (inv : Inv s)
    (hnr : ∀ t ∈ s.tasks, t.status ≠ "rendering")
    (hw0 : ∃ w0 ∈ s.workers, w0.id = wid)
    (ht0 : t0 ∈ s.tasks) :
    Inv { s with tasks := setTaskAssigned t0.id wid s.tasks,
                 workers := setWorkerBusy wid t0.id s.workers } := by
  have idle := workers_idle_of_no_rendering inv hnr
  rcases hw0 with ⟨w0, hw0mem, hw0id⟩
  have hBusyMem : ({ w0 with status := "Busy", current_task_id := some t0.id } : Worker)
      ∈ setWorkerBusy wid t0.id s.workers := by
    unfold setWorkerBusy
    have hm := List.mem_map_of_mem
      (fun w => if w.id = wid then
        { w with status := "Busy", current_task_id := some t0.id } else w) hw0mem
    dsimp only at hm
    rw [if_pos hw0id] at hm
    exact hm
  constructor
  · intro t' ht'
    rcases List.mem_map.mp ht' with ⟨t, ht, rfl⟩
    by_cases hid : t.id = t0.id
    · rw [if_pos hid]
      refine iff_of_true rfl ?_
      exact ⟨{ w0 with status := "Busy", current_task_id := some t0.id }, hBusyMem,
        by rw [hw0id], by rw [hid]⟩
    · rw [if_neg hid]
      refine iff_of_false (hnr t ht) ?_
      rintro ⟨w', -, hwid', -⟩
      rw [inv.unassigned t ht (hnr t ht)] at hwid'
      cases hwid'
  · intro t' ht' hne
    rcases List.mem_map.mp ht' with ⟨t, ht, rfl⟩
    by_cases hid : t.id = t0.id
    · rw [if_pos hid] at hne ⊢
      exact absurd rfl hne
    · rw [if_neg hid] at hne ⊢
      exact inv.unassigned t ht hne
  · intro w' hw' tid hcur
    rcases List.mem_map.mp hw' with ⟨w, hw, rfl⟩
    by_cases hwid2 : w.id = wid
    · rw [if_pos hwid2] at hcur ⊢
      cases hcur
      refine ⟨{ t0 with status := "rendering", worker_id := some wid }, ?_, rfl, rfl, ?_⟩
      · unfold setTaskAssigned
        have hm := List.mem_map_of_mem
          (fun t => if t.id = t0.id then
            { t with status := "rendering", worker_id := some wid } else t) ht0
        dsimp only at hm
        rw [if_pos rfl] at hm
        exact hm
      · rw [hwid2]
    · rw [if_neg hwid2] at hcur ⊢
      rw [idle w hw] at hcur
      cases hcur
  · intro t' ht'
    rcases List.mem_map.mp ht' with ⟨t, ht, rfl⟩
    by_cases hid : t.id = t0.id
    · rw [if_pos hid]
      exact inv.createdConst t ht
    · rw [if_neg hid]
      exact inv.createdConst t ht

theorem inv_map_workers {s : St} (inv : Inv s) (g : Worker → Worker)
    (hid : ∀ w, (g w).id = w.id)
    (hcur : ∀ w, (g w).current_task_id = w.current_task_id) :
    Inv { s with workers := s.workers.map g } := by
  constructor
  · intro t ht
    rw [inv.linked t ht]
    constructor
    · rintro ⟨w, hw, h1, h2⟩
      exact ⟨g w, List.mem_map_of_mem g hw, by rw [hid]; exact h1, by rw [hcur]; exact h2⟩
    · rintro ⟨w', hw', h1, h2⟩
      rcases List.mem_map.mp hw' with ⟨w, hw, rfl⟩
      rw [hid] at h1
      rw [hcur] at h2
      exact ⟨w, hw, h1, h2⟩
  · exact inv.unassigned
  · intro w' hw' tid h
    rcases List.mem_map.mp hw' with ⟨w, hw, rfl⟩
    rw [hcur] at h
    rcases inv.workerTask w hw tid h with ⟨t, ht, h1, h2, h3⟩
    exact ⟨t, ht, h1, h2, by rw [hid]; exact h3⟩
  · exact inv.createdConst

theorem inv_requestTask {s : St} (inv : Inv s) (wid : Option Nat) (now : Nat) :
    Inv (workerRequestTask wid now s).1 := by
  unfold workerRequestTask
  dsimp only
  split
  · exact inv
  next hr =>
    have hnr : ∀ t ∈ s.tasks, t.status ≠ "rendering" := by
      intro t ht
      have := List.find?_eq_none.mp hr t ht
      simpa using this
    by_cases h0 : (s.workers.filter (fun w => w.status = "Ready")).length = 0
    · simp only [if_pos h0]
      split
      next hfw => exact inv_autoRegister inv now
      next w' hfw =>
        split
        next hsel => exact inv_autoRegister inv now
        next t0 hsel =>
          refine inv_bind (inv_autoRegister inv now) hnr ?_ (selectNextTask_mem_pending hsel).1
          refine ⟨w', List.mem_of_find?_eq_some hfw, ?_⟩
          have := List.find?_some hfw
          simpa using this
    · simp only [if_neg h0]
      split
      · exact inv
      · split
        next hfw => exact inv
        next w' hfw =>
          split
          next hsel => exact inv
          next t0 hsel =>
            refine inv_bind inv hnr ?_ (selectNextTask_mem_pending hsel).1
            refine ⟨w', List.mem_of_find?_eq_some hfw, ?_⟩
            have := List.find?_some hfw
            simpa using this

theorem inv_updateWorkerStatus {s : St} (inv : Inv s) (wid : Nat) (st : String) :
    Inv (updateWorkerStatus wid st s).1 := by
  unfold updateWorkerStatus
  split
  · exact inv
  · split
    · split
      · refine inv_map_workers inv _ ?_ ?_ <;> intro w <;>
          by_cases h : w.id = wid <;> simp [h]
      · exact inv
    · exact inv

theorem updateRenderStatus_fst (tid : Nat) (st : Option String) (pr : Option Rat)
    (s : St) : (updateRenderStatus tid st pr s).1 = s := by
  unfold updateRenderStatus
  cases findTask s tid <;> rfl

theorem completeRender_fst (tid : Nat) (s : St) : (completeRender tid s).1 = s := by
  unfold completeRender
  cases findTask s tid <;> rfl

theorem workerHeartbeat_fst (wid : Nat) (s : St) : (workerHeartbeat wid s).1 = s := by
  unfold workerHeartbeat
  cases findWorker s wid <;> rfl

theorem getRenderStatus_fst (tid : Nat) (s : St) : (getRenderStatus tid s).1 = s := by
  unfold getRenderStatus
  cases findTask s tid <;> rfl

theorem foldl_preserve {α : Type} {P : St → Prop} {f : St → α → St}
    (hf : ∀ st a, P st → P (f st a)) :
    ∀ (l : List α) (st : St), P st → P (l.foldl f st) := by
  intro l
  induction l with
  | nil => intro st h; exact h
  | cons a as ih => intro st h; exact ih _ (hf st a h)

theorem inv_sweep {s : St} (inv : Inv s) (now : Nat) :
    Inv (checkWorkerFailures now s) := by
  unfold checkWorkerFailures
  dsimp only
  split
  · exact inv_requestTask inv none now
  · refine foldl_preserve ?_ _ s inv
    intro st w h
    exact inv_requestTask h (some w.id) now

theorem inv_step {s : St} (inv : Inv s) (o : Op) : Inv (step s o) := by
  cases o with
  | submit p => exact inv_createRender inv p
  | listTasks => exact inv
  | getTask tid =>
    show Inv (getRenderStatus tid s).1
    rw [getRenderStatus_fst]
    exact inv
  | listWorkers => exact inv
  | request wid now => exact inv_requestTask inv wid now
  | updWorker wid st => exact inv_updateWorkerStatus inv wid st
  | updTask tid st pr =>
    show Inv (updateRenderStatus tid st pr s).1
    rw [updateRenderStatus_fst]
    exact inv
  | complete tid =>
    show Inv (completeRender tid s).1
    rw [completeRender_fst]
    exact inv
  | heartbeat wid =>
    show Inv (workerHeartbeat wid s).1
    rw [workerHeartbeat_fst]
    exact inv
  | sweep now => exact inv_sweep inv now

theorem run_inv (ops : List Op) : Inv (run ops) := by
  show Inv (List.foldl step initSt ops)
  refine foldl_preserve ?_ ops initSt inv_initSt
  intro st o h
  exact inv_step h o

/-! ### Shape of `worker_request_task` results -/

theorem findWorker_autoRegister (s : St) (now : Nat) :
    ∃ w, findWorker (autoRegister now s) s.nextId = some w := by
  unfold findWorker autoRegister
  dsimp only
  rw [List.find?_append]
  cases h : s.workers.find? (fun w => w.id = s.nextId) with
  | some w => exact ⟨w, rfl⟩
  | none =>
    refine ⟨⟨s.nextId, "Ready", some now, none⟩, ?_⟩
    simp [List.find?]

/-- Every call to `worker_request_task` ends in one of exactly five ways:
a busy rejection, a worker-not-found rejection, a no-tasks report (with the
state unchanged), a no-tasks report after the auto-registration insert
persisted, or a successful bind. -/
theorem requestTask_shape (wid : Option Nat) (now : Nat) (s : St) :
    workerRequestTask wid now s = (s, Resp.busyR) ∨
    workerRequestTask wid now s = (s, Resp.workerNotFound) ∨
    workerRequestTask wid now s = (s, Resp.noTasksR) ∨
    workerRequestTask wid now s = (autoRegister now s, Resp.noTasksR) ∨
    (∃ tid, (workerRequestTask wid now s).2 = Resp.assignedR tid) := by
  unfold workerRequestTask
  dsimp only
  cases hr : s.tasks.find? (fun t => t.status = "rendering") with
  | some t => left; rfl
  | none =>
    by_cases h0 : (s.workers.filter (fun w => w.status = "Ready")).length = 0
    · simp only [if_pos h0]
      rcases findWorker_autoRegister s now with ⟨w, hw⟩
      rw [hw]
      dsimp only
      cases hsel : selectNextTask (autoRegister now s).tasks with
      | none => right; right; right; left; rfl
      | some t0 => right; right; right; right; exact ⟨t0.id, rfl⟩
    · simp only [if_neg h0]
      cases wid with
      | none => right; left; rfl
      | some w =>
        dsimp only
        cases hfw : findWorker s w with
        | none => right; left; rfl
        | some wrec =>
          cases hsel : selectNextTask s.tasks with
          | none => right; right; left; rfl
          | some t0 => right; right; right; right; exact ⟨t0.id, rfl⟩

theorem createRender_shape (p : Option String) (s : St) :
    ((createRender p s).2 = Resp.invalidPriority ∧ (createRender p s).1 = s) ∨
    (createRender p s).2 = Resp.createdR s.nextId := by
  unfold createRender
  dsimp only
  split
  · right; rfl
  · left; exact ⟨rfl, rfl⟩

theorem updateWorkerStatus_shape (wid : Nat) (st : String) (s : St) :
    (updateWorkerStatus wid st s).1 = s ∨
    (updateWorkerStatus wid st s).2 = Resp.okWorkerStatus := by
  unfold updateWorkerStatus
  cases hf : findWorker s wid with
  | none => left; rfl
  | some w =>
    by_cases hv : st ∈ (["Ready", "Busy", "Offline"] : List String)
    · by_cases ho : st = "Offline"
      · right
        rw [if_pos hv, if_pos ho]
      · left
        rw [if_pos hv, if_neg ho]
    · left
      rw [if_neg hv]

/-! ### The claims -/

/-- Ops reaching a state with a LOW task submitted before a RUSH task. -/
def c1Ops : List Op := [Op.submit (some "LOW"), Op.submit (some "RUSH")]

/-- Ops reaching a state where worker 1 is auto-registered by the same
request that binds task 0 to it (so worker 1 is Busy with a real
heartbeat timestamp while task 0 is rendering). -/
def liveOps : List Op := [Op.submit (some "MEDIUM"), Op.request none 0]

/-- The state reached by `liveOps`. -/
def liveState : St := run liveOps

/-- Ops reaching a state with task 2 rendering on worker 0 while worker 1 is
Ready and holds no task. -/
def demoOps : List Op :=
  [Op.request none 0, Op.updWorker 0 "Offline", Op.request none 1,
   Op.submit (some "MEDIUM"), Op.request (some 0) 2]

/-- The state reached by `demoOps`. -/
def demoState : St := run demoOps

/-- The rendering task of `liveState`. -/
def liveTask : RenderTask := ⟨0, "rendering", "MEDIUM", 0, 0, 0, some 1⟩

/-- C1: in every reachable store that has a pending task, the dispatcher's
selection query returns a pending task whose priority rank is minimal among
all pending tasks (RUSH before HIGH before MEDIUM before LOW); every pending
task listed before it in submission order has a strictly worse rank (so
within its priority band it is the earliest-submitted); its createdAt is a
minimum among same-band pending tasks; and whenever a RequestTask call ends
in a successful bind, the task it binds is exactly this selection. -/
theorem C1_dispatch_priority_fifo (ops : List Op)
    (h : ∃ t ∈ (run ops).tasks, t.status = "pending") :
    ∃ tsel, selectNextTask (run ops).tasks = some tsel ∧
      tsel ∈ (run ops).tasks ∧ tsel.status = "pending" ∧
      (∀ u ∈ (run ops).tasks, u.status = "pending" →
        prioRank tsel.priority ≤ prioRank u.priority) ∧
      (∃ l1 l2, (run ops).tasks.filter (fun u => u.status = "pending") =
          l1 ++ tsel :: l2 ∧
        ∀ u ∈ l1, prioRank tsel.priority < prioRank u.priority) ∧
      (∀ u ∈ (run ops).tasks, u.status = "pending" →
        prioRank u.priority = prioRank tsel.priority →
          tsel.created_at ≤ u.created_at) ∧
      (∀ wid now tid, (workerRequestTask wid now (run ops)).2 = Resp.assignedR tid →
        tid = tsel.id) := by
  rcases selectNextTask_isSome h with ⟨tsel, hsel⟩
  have hmp := selectNextTask_mem_pending hsel
  refine ⟨tsel, hsel, hmp.1, hmp.2, selectNextTask_min hsel, pickMin_split hsel,
    ?_, ?_⟩
  · intro u hu hpu hrank
    rw [(run_inv ops).createdConst tsel hmp.1, (run_inv ops).createdConst u hu]
  · intro wid now tid heq
    unfold workerRequestTask at heq
    dsimp only at heq
    cases hr : (run ops).tasks.find? (fun t => t.status = "rendering") with
    | some t =>
      rw [hr] at heq
      exact Resp.noConfusion heq
    | none =>
      rw [hr] at heq
      dsimp only at heq
      by_cases h0 : ((run ops).workers.filter (fun w => w.status = "Ready")).length = 0
      · simp only [if_pos h0] at heq
        rcases findWorker_autoRegister (run ops) now with ⟨w, hw⟩
        rw [hw] at heq
        dsimp only at heq
        cases hsel2 : selectNextTask (autoRegister now (run ops)).tasks with
        | none =>
          rw [hsel2] at heq
          exact Resp.noConfusion heq
        | some t0 =>
          rw [hsel2] at heq
          dsimp only at heq
          injection heq with h5
          have h6 : selectNextTask (run ops).tasks = some t0 := hsel2
          rw [hsel] at h6
          injection h6 with h7
          rw [← h5, ← h7]
      · simp only [if_neg h0] at heq
        cases wid with
        | none => exact Resp.noConfusion heq
        | some w =>
          dsimp only at heq
          cases hfw : findWorker (run ops) w with
          | none =>
            rw [hfw] at heq
            exact Resp.noConfusion heq
          | some wrec =>
            rw [hfw] at heq
            dsimp only at heq
            cases hsel2 : selectNextTask (run ops).tasks with
            | none =>
              rw [hsel2] at heq
              exact Resp.noConfusion heq
            | some t0 =>
              rw [hsel2] at heq
              dsimp only at heq
              injection heq with h5
              rw [hsel] at hsel2
              injection hsel2 with h7
              rw [← h5, ← h7]

/-- Witness for C1 at a concrete reachable store: a LOW task submitted
before a RUSH task; the selection picks the RUSH task. -/
theorem C1_dispatch_priority_fifo_witness :
    (∃ t ∈ (run c1Ops).tasks, t.status = "pending") ∧
    (∃ tsel, selectNextTask (run c1Ops).tasks = some tsel ∧
      tsel ∈ (run c1Ops).tasks ∧ tsel.status = "pending" ∧
      (∀ u ∈ (run c1Ops).tasks, u.status = "pending" →
        prioRank tsel.priority ≤ prioRank u.priority) ∧
      (∃ l1 l2, (run c1Ops).tasks.filter (fun u => u.status = "pending") =
          l1 ++ tsel :: l2 ∧
        ∀ u ∈ l1, prioRank tsel.priority < prioRank u.priority) ∧
      (∀ u ∈ (run c1Ops).tasks, u.status = "pending" →
        prioRank u.priority = prioRank tsel.priority →
          tsel.created_at ≤ u.created_at) ∧
      (∀ wid now tid, (workerRequestTask wid now (run c1Ops)).2 = Resp.assignedR tid →
        tid = tsel.id)) :=
  ⟨by decide, C1_dispatch_priority_fifo c1Ops (by decide)⟩

/-- C5: in every state reachable by any sequence of operations, a task has
status Assigned (source string "rendering") exactly when its assignedWorker
is set to a registered worker whose currentTask is this task's id, and a
task with any other status has no assignedWorker. -/
theorem C5_assigned_iff_bound (ops : List Op) (t : RenderTask)
    (ht : t ∈ (run ops).tasks) :
    (t.status = "rendering" ↔
      ∃ w ∈ (run ops).workers, t.worker_id = some w.id ∧
        w.current_task_id = some t.id) ∧
    (t.status ≠ "rendering" → t.worker_id = none) :=
  ⟨(run_inv ops).linked t ht, (run_inv ops).unassigned t ht⟩

/-- Witness for C5 at the concrete reachable state `liveState`. -/
theorem C5_assigned_iff_bound_witness :
    liveTask ∈ (run liveOps).tasks ∧
    ((liveTask.status = "rendering" ↔
      ∃ w ∈ (run liveOps).workers, liveTask.worker_id = some w.id ∧
        w.current_task_id = some liveTask.id) ∧
    (liveTask.status ≠ "rendering" → liveTask.worker_id = none)) :=
  ⟨by decide, C5_assigned_iff_bound liveOps liveTask (by decide)⟩

/-- C2 (code bug): in the reachable state `demoState`, worker 1 is Ready and
holds no Assigned task (no task's assignedWorker is worker 1), yet its
RequestTask call is rejected with the busy result, because the source's
busy-check filter collapses to "any task has status rendering" (the Python
`and` discards the per-worker conjunct), and here task 2 is rendering on
worker 0.  The call is a no-op. -/
theorem C2_busy_check_ignores_requesting_worker :
    (∀ w ∈ demoState.workers, w.id = 1 → w.current_task_id = none ∧ w.status = "Ready") ∧
    (∀ t ∈ demoState.tasks, t.worker_id ≠ some 1) ∧
    (workerRequestTask (some 1) 3 demoState).2 = Resp.busyR ∧
    (workerRequestTask (some 1) 3 demoState).1 = demoState := by decide

/-- C3 (code bug): in the reachable state `liveState`, worker 1 is stale at
time 100 (heartbeat 0, timeout 30), is not Offline, and is bound to task 0;
one Liveness Monitor sweep leaves the state completely unchanged — the task
is still "rendering" (not Pending, assignedWorker not cleared) and the worker
is still Busy (not Offline) — because the sweep calls worker_request_task for
the stale worker instead of reclaiming, and that call bounces off the global
busy check. -/
theorem C3_sweep_does_not_reclaim :
    (∃ w ∈ liveState.workers, staleWorker 100 w ∧ w.status = "Busy" ∧
      w.current_task_id = some 0) ∧
    (∃ t ∈ liveState.tasks, t.id = 0 ∧ t.status = "rendering" ∧
      t.worker_id = some 1) ∧
    checkWorkerFailures 100 liveState = liveState := by decide

/-- C4 (code bug): in the reachable state `liveState`, task 0 is Assigned to
worker 1; CompleteTask(0) ends in HTTP 500 (the bare datetime() call raises
TypeError before the commit) and changes nothing: the task does not become
Completed and the worker stays Busy with its currentTask still set.
CompleteTask on an unknown id does return NotFound. -/
theorem C4_complete_crashes_and_frees_nothing :
    (∃ t ∈ liveState.tasks, t.id = 0 ∧ t.status = "rendering" ∧
      t.worker_id = some 1) ∧
    (completeRender 0 liveState).2 = Resp.serverError ∧
    (completeRender 0 liveState).1 = liveState ∧
    (∃ w ∈ (completeRender 0 liveState).1.workers, w.id = 1 ∧
      w.status = "Busy" ∧ w.current_task_id = some 0) ∧
    (completeRender 99 liveState).2 = Resp.taskNotFound := by decide

/-- C6 counterexample: on the empty store, RequestTask ends in the
"No available tasks" error result (HTTP 404), yet it has created and
committed a worker record — the store is not as it was before the call. -/
theorem C6_counterexample_request_not_atomic :
    400 ≤ (workerRequestTask none 5 initSt).2.code ∧
    (workerRequestTask none 5 initSt).1 ≠ initSt := by decide

/-- C6 amended: every operation that ends in an error result (HTTP status
at least 400) leaves the store exactly as it was — except RequestTask, which,
when there is no Ready worker, first auto-registers and commits a fresh
worker and may then still report "No available tasks"; that insert persists. -/
theorem C6_error_results_atomic_except_autoregister (s : St) (o : Op)
    (h : 400 ≤ (stepR s o).2.code) :
    (stepR s o).1 = s ∨
    ∃ wid now, o = Op.request wid now ∧ (stepR s o).2 = Resp.noTasksR ∧
      (stepR s o).1 = autoRegister now s := by
  cases o with
  | submit p =>
    rcases createRender_shape p s with ⟨h1, h2⟩ | h1
    · left; exact h2
    · exfalso
      rw [show (stepR s (Op.submit p)).2 = (createRender p s).2 from rfl, h1] at h
      simp [Resp.code] at h
  | listTasks => left; rfl
  | getTask tid => left; exact getRenderStatus_fst tid s
  | listWorkers => left; rfl
  | request wid now =>
    rcases requestTask_shape wid now s with h1 | h1 | h1 | h1 | ⟨tid, h1⟩
    · left
      show (workerRequestTask wid now s).1 = s
      rw [h1]
    · left
      show (workerRequestTask wid now s).1 = s
      rw [h1]
    · left
      show (workerRequestTask wid now s).1 = s
      rw [h1]
    · right
      refine ⟨wid, now, rfl, ?_, ?_⟩
      · show (workerRequestTask wid now s).2 = _
        rw [h1]
      · show (workerRequestTask wid now s).1 = _
        rw [h1]
    · exfalso
      rw [show (stepR s (Op.request wid now)).2 = (workerRequestTask wid now s).2
          from rfl, h1] at h
      simp [Resp.code] at h
  | updWorker wid st =>
    rcases updateWorkerStatus_shape wid st s with h1 | h1
    · left; exact h1
    · exfalso
      rw [show (stepR s (Op.updWorker wid st)).2 = (updateWorkerStatus wid st s).2
          from rfl, h1] at h
      simp [Resp.code] at h
  | updTask tid st pr => left; exact updateRenderStatus_fst tid st pr s
  | complete tid => left; exact completeRender_fst tid s
  | heartbeat wid => left; exact workerHeartbeat_fst wid s
  | sweep now =>
    exfalso
    rw [show (stepR s (Op.sweep now)).2 = Resp.okSweep from rfl] at h
    simp [Resp.code] at h

/-- Witness for the amended C6: CompleteTask on an unknown id over the empty
store is an error (404) and leaves the store unchanged. -/
theorem C6_error_results_atomic_witness :
    400 ≤ (stepR initSt (Op.complete 0)).2.code ∧
    ((stepR initSt (Op.complete 0)).1 = initSt ∨
     ∃ wid now, Op.complete 0 = Op.request wid now ∧
       (stepR initSt (Op.complete 0)).2 = Resp.noTasksR ∧
       (stepR initSt (Op.complete 0)).1 = autoRegister now initSt) :=
  ⟨by decide, C6_error_results_atomic_except_autoregister initSt (Op.complete 0) (by decide)⟩

/-- C7 (code bug): UpdateStatus on a known task always ends in HTTP 500 (the
bare datetime() call raises TypeError before the commit) and mutates nothing:
a progress-only call neither stores the progress nor refreshes updatedAt;
an out-of-range progress or an unrecognized status is not rejected with
InvalidArgument (the source validates neither).  Only the NotFound case
behaves as claimed. -/
theorem C7_update_status_crashes :
    (∃ t ∈ liveState.tasks, t.id = 0) ∧
    (updateRenderStatus 0 none (some (1/2 : Rat)) liveState).2 = Resp.serverError ∧
    (updateRenderStatus 0 none (some (1/2 : Rat)) liveState).1 = liveState ∧
    (updateRenderStatus 0 (some "Bogus") (some (2 : Rat)) liveState).2 = Resp.serverError ∧
    (updateRenderStatus 99 none none liveState).2 = Resp.taskNotFound := by decide

/-- C8 (code bug): Heartbeat on a registered worker ends in HTTP 500 (the
bare datetime() call raises TypeError before the commit) and does not refresh
lastHeartbeat — the store is unchanged; only the NotFound case behaves as
claimed. -/
theorem C8_heartbeat_crashes :
    (∃ w ∈ liveState.workers, w.id = 1) ∧
    (workerHeartbeat 1 liveState).2 = Resp.serverError ∧
    (workerHeartbeat 1 liveState).1 = liveState ∧
    (workerHeartbeat 99 liveState).2 = Resp.workerNotFound := by decide

/-- C9 counterexample: on the empty store, the RequestTask call that finds
no pending task reports "No available tasks" with HTTP status 404 — an error
status, not a non-fault result — and the store is changed (a worker was
auto-registered and committed before the report). -/
theorem C9_counterexample_no_task_is_error_result :
    (stepR initSt (Op.request none 0)).2 = Resp.noTasksR ∧
    400 ≤ (stepR initSt (Op.request none 0)).2.code ∧
    (stepR initSt (Op.request none 0)).1 ≠ initSt := by decide

/-- C9 amended: a RequestTask call made when no task is pending (and no task
is rendering, so the busy check passes, and the worker resolves — either a
Ready worker shortage triggers auto-registration or the given id is known)
reports "No available tasks" (carried with HTTP 404, an error status); the
tasks are untouched, and the store is unchanged unless the auto-registration
insert fired, which persists. -/
theorem C9_no_task_report (s : St) (wid : Option Nat) (now : Nat)
    (hp : ∀ t ∈ s.tasks, t.status ≠ "pending")
    (hr : ∀ t ∈ s.tasks, t.status ≠ "rendering")
    (hw : (s.workers.filter (fun w => w.status = "Ready")).length = 0 ∨
      ∃ w wrec, wid = some w ∧ findWorker s w = some wrec) :
    (workerRequestTask wid now s).2 = Resp.noTasksR ∧
    ((workerRequestTask wid now s).1 = s ∨
     (workerRequestTask wid now s).1 = autoRegister now s) := by
  have hfind : s.tasks.find? (fun t => t.status = "rendering") = none :=
    List.find?_eq_none.mpr (fun t ht => by simpa using hr t ht)
  have hselS : selectNextTask s.tasks = none := by
    unfold selectNextTask
    rw [pickMin_eq_none, List.filter_eq_nil_iff]
    intro t ht
    simpa using hp t ht
  unfold workerRequestTask
  dsimp only
  rw [hfind]
  dsimp only
  by_cases h0 : (s.workers.filter (fun w => w.status = "Ready")).length = 0
  · simp only [if_pos h0]
    rcases findWorker_autoRegister s now with ⟨w, hwfw⟩
    rw [hwfw]
    dsimp only
    have hsel1 : selectNextTask (autoRegister now s).tasks = none := hselS
    rw [hsel1]
    exact ⟨rfl, Or.inr rfl⟩
  · simp only [if_neg h0]
    rcases hw with hcase | ⟨w, wrec, rfl, hfw⟩
    · exact absurd hcase h0
    · dsimp only
      rw [hfw]
      dsimp only
      rw [hselS]
      exact ⟨rfl, Or.inl rfl⟩

/-- Witness for the amended C9: a state with one Ready worker and no tasks;
RequestTask from that worker reports "No available tasks" with the store
unchanged. -/
theorem C9_no_task_report_witness :
    (workerRequestTask (some 0) 7 (run [Op.request none 0])).2 = Resp.noTasksR ∧
    ((workerRequestTask (some 0) 7 (run [Op.request none 0])).1 =
        run [Op.request none 0] ∨
     (workerRequestTask (some 0) 7 (run [Op.request none 0])).1 =
        autoRegister 7 (run [Op.request none 0])) :=
  C9_no_task_report (run [Op.request none 0]) (some 0) 7 (by decide) (by decide)
    (Or.inr ⟨0, ⟨0, "Ready", some 0, none⟩, rfl, by decide⟩)

/-- C10: the read-only operations — the task listing, the single-task lookup
(whether it finds the task or reports NotFound), and the worker listing —
return the store exactly as it was. -/
theorem C10_reads_do_not_mutate (s : St) (tid : Nat) :
    (getRenders s).1 = s ∧ (getRenderStatus tid s).1 = s ∧ (getWorkers s).1 = s :=
  ⟨rfl, getRenderStatus_fst tid s, rfl⟩

end DistributedRendering
